import Mathlib

set_option linter.unusedVariables false
set_option maxRecDepth 8192

/-!
Shallow embedding of the vibe-forge orchestrator core.

The definitions below are translated from the Rust sources:
`src/domain/{workspace,session,agent}.rs`, `src/infra/{state,tmux,claude}.rs`,
`src/commands/{doctor,kill,new}.rs` and `src/tui/{app,mod}.rs`.
Machine strings are Lean `String`s, byte strings are `List Nat`,
paths / UUIDs / timestamps are modelled as opaque strings, and JSON documents
are modelled at the level of `serde_json::Value`.
-/

/-- JSON value model at the granularity of `serde_json::Value`: the persisted
state file is a JSON document, and serde field semantics (required fields,
`Option` fields, `#[serde(default)]` fields) are what the claims depend on. -/
inductive Json where
  | null
  | bool (b : Bool)
  | num (n : Nat)
  | str (s : String)
  | arr (elems : List Json)
  | obj (fields : List (String × Json))
deriving Repr

/-- First-match association-list lookup, the access pattern of a JSON object. -/
def jlookup : List (String × Json) → String → Option Json
  | [], _ => none
  | (k, v) :: rest, key => if k = key then some v else jlookup rest key

/-- Field access on a JSON value: lookup inside an object, nothing otherwise. -/
def Json.get? : Json → String → Option Json
  | .obj fs, key => jlookup fs key
  | _, _ => none

def Json.asStr? : Json → Option String
  | .str s => some s
  | _ => none

def Json.asBool? : Json → Option Bool
  | .bool b => some b
  | _ => none

def Json.asNat? : Json → Option Nat
  | .num n => some n
  | _ => none

/-- Decode a required struct field: serde errors when it is missing. -/
def reqField (j : Json) (key : String) (f : Json → Option α) : Option α :=
  (j.get? key).bind f

/-- Decode the looked-up value of an `Option<T>` struct field: serde
deserializes a missing field and an explicit `null` both as `None`, and
errors on a present ill-typed value. -/
def decOptJ (f : Json → Option α) : Option Json → Option (Option α)
  | none => some none
  | some .null => some none
  | some v => (f v).map some

/-- Decode an `Option<T>` struct field of an object. -/
def optField (j : Json) (key : String) (f : Json → Option α) : Option (Option α) :=
  decOptJ f (j.get? key)

/-- Decode the looked-up value of a `#[serde(default)]` struct field: a missing
field takes the default, a present ill-typed value is an error. -/
def decDfltJ (d : α) (f : Json → Option α) : Option Json → Option α
  | none => some d
  | some v => f v

/-- Decode a `#[serde(default)]` struct field of an object. -/
def dfltField (j : Json) (key : String) (d : α) (f : Json → Option α) : Option α :=
  decDfltJ d f (j.get? key)

/-- Serialize an `Option` field the way serde does: `None` becomes `null`. -/
def encOpt (f : α → Json) : Option α → Json
  | none => .null
  | some a => f a

/-- Fail-fast elementwise decoding, the semantics of serde on `Vec<T>`. -/
def optMapM (f : α → Option β) : List α → Option (List β)
  | [] => some []
  | x :: xs => do
    let y ← f x
    let ys ← optMapM f xs
    pure (y :: ys)

/-- Decode a JSON array elementwise. -/
def decList (f : Json → Option α) : Json → Option (List α)
  | .arr xs => optMapM f xs
  | _ => none

/-- Decode a JSON object as a string-to-string map (Rust `BTreeMap<String, PathBuf>`;
the map is modelled as an association list in document order). -/
def decStrMap : Json → Option (List (String × String))
  | .obj fs => optMapM (fun kv => (Json.asStr? kv.2).map (fun s => (kv.1, s))) fs
  | _ => none

/-- Serialize a string-to-string map as a JSON object. -/
def encStrMap (m : List (String × String)) : Json :=
  .obj (m.map fun kv => (kv.1, .str kv.2))

/-! Domain data model, from `src/domain/workspace.rs`, `session.rs`, `agent.rs`. -/

/-- Rust `WorkspaceKind` (src/domain/workspace.rs): `#[default] SingleRepo` or `MultiRepo`. -/
inductive WorkspaceKind where
  | SingleRepo
  | MultiRepo
deriving Repr, DecidableEq

/-- Rust `RepoInfo` (src/domain/workspace.rs). -/
structure RepoInfo where
  root : String
  name : String
  default_branch : String
  remote_url : Option String
deriving Repr, DecidableEq

/-- Rust `Workspace` (src/domain/workspace.rs). `kind` and `repos` carry
`#[serde(default)]`. The source field `worktree_prefix` is spelled
`worktree_prefix_` here. -/
structure Workspace where
  root : String
  name : String
  default_branch : String
  remote_url : Option String
  worktree_prefix_ : String
  worktree_base_dir : String
  kind : WorkspaceKind
  repos : List RepoInfo
deriving Repr, DecidableEq

/-- Rust `SessionStatus` (src/domain/session.rs). -/
inductive SessionStatus where
  | Creating
  | Active
  | Paused
  | Completed
  | Failed (msg : String)
  | Archived
deriving Repr, DecidableEq

/-- Rust `SessionMetadata` (src/domain/session.rs). -/
structure SessionMetadata where
  description : Option String
  pr_number : Option Nat
  parent_session : Option String
  turns : Option Nat
deriving Repr, DecidableEq

/-- Rust `Session` (src/domain/session.rs). `is_main` and `repo_worktrees`
carry `#[serde(default)]`. -/
structure Session where
  id : String
  name : String
  branch : String
  worktree_path : String
  tmux_window : String
  status : SessionStatus
  claude_session_id : Option String
  template : Option String
  system_prompt_override : Option String
  created_at : String
  updated_at : String
  agents : List String
  metadata : SessionMetadata
  is_main : Bool
  repo_worktrees : List (String × String)
deriving Repr, DecidableEq

/-- Rust `Session::is_active` (src/domain/session.rs): Active or Creating. -/
def Session.is_active (s : Session) : Bool :=
  match s.status with
  | .Active => true
  | .Creating => true
  | _ => false

/-- Rust `AgentMode` (src/domain/agent.rs). -/
inductive AgentMode where
  | Headless
  | Interactive
  | Shell
deriving Repr, DecidableEq

/-- Rust `AgentStatus` (src/domain/agent.rs). -/
inductive AgentStatus where
  | Queued
  | Running
  | Completed
  | Failed (msg : String)
  | Ingested
deriving Repr, DecidableEq

/-- Rust `AgentResult` (src/domain/agent.rs). -/
structure AgentResult where
  success : Bool
  summary : String
  duration_ms : Nat
  session_id : String
  raw_result : Option String
deriving Repr, DecidableEq

/-- Rust `Agent` (src/domain/agent.rs). -/
structure Agent where
  id : String
  parent_session : String
  name : String
  mode : AgentMode
  status : AgentStatus
  template : Option String
  prompt : String
  system_prompt : Option String
  worktree_path : String
  tmux_pane : Option String
  pid : Option Nat
  claude_session_id : Option String
  output_file : String
  result : Option AgentResult
  created_at : String
  completed_at : Option String
deriving Repr, DecidableEq

/-- Rust `Agent::is_done` (src/domain/agent.rs): Completed, Failed or Ingested. -/
def AgentStatus.is_done : AgentStatus → Bool
  | .Completed => true
  | .Failed _ => true
  | .Ingested => true
  | _ => false

/-- Rust `WorkspaceState` (src/domain/workspace.rs): the aggregate persisted document. -/
structure WorkspaceState where
  workspace : Workspace
  sessions : List Session
  agents : List Agent
  tmux_session_name : String
deriving Repr, DecidableEq

/-- Rust `WorkspaceState::find_session_by_name`: first session with the name. -/
def WorkspaceState.find_session_by_name (st : WorkspaceState) (name : String) : Option Session :=
  st.sessions.find? (fun s => s.name = name)

/-! Serde codecs for the persisted document (`#[derive(Serialize, Deserialize)]`
on the domain structs, externally tagged enums). -/

def WorkspaceKind.toJson : WorkspaceKind → Json
  | .SingleRepo => .str "SingleRepo"
  | .MultiRepo => .str "MultiRepo"

def WorkspaceKind.fromJson? : Json → Option WorkspaceKind
  | .str "SingleRepo" => some .SingleRepo
  | .str "MultiRepo" => some .MultiRepo
  | _ => none

def SessionStatus.toJson : SessionStatus → Json
  | .Creating => .str "Creating"
  | .Active => .str "Active"
  | .Paused => .str "Paused"
  | .Completed => .str "Completed"
  | .Failed msg => .obj [("Failed", .str msg)]
  | .Archived => .str "Archived"

def SessionStatus.fromJson? : Json → Option SessionStatus
  | .str "Creating" => some .Creating
  | .str "Active" => some .Active
  | .str "Paused" => some .Paused
  | .str "Completed" => some .Completed
  | .str "Archived" => some .Archived
  | .obj [("Failed", .str msg)] => some (.Failed msg)
  | _ => none

def AgentStatus.toJson : AgentStatus → Json
  | .Queued => .str "Queued"
  | .Running => .str "Running"
  | .Completed => .str "Completed"
  | .Failed msg => .obj [("Failed", .str msg)]
  | .Ingested => .str "Ingested"

def AgentStatus.fromJson? : Json → Option AgentStatus
  | .str "Queued" => some .Queued
  | .str "Running" => some .Running
  | .str "Completed" => some .Completed
  | .str "Ingested" => some .Ingested
  | .obj [("Failed", .str msg)] => some (.Failed msg)
  | _ => none

def AgentMode.toJson : AgentMode → Json
  | .Headless => .str "Headless"
  | .Interactive => .str "Interactive"
  | .Shell => .str "Shell"

def AgentMode.fromJson? : Json → Option AgentMode
  | .str "Headless" => some .Headless
  | .str "Interactive" => some .Interactive
  | .str "Shell" => some .Shell
  | _ => none

def RepoInfo.toJson (r : RepoInfo) : Json :=
  .obj [("root", .str r.root), ("name", .str r.name),
        ("default_branch", .str r.default_branch),
        ("remote_url", encOpt .str r.remote_url)]

def RepoInfo.fromJson? (j : Json) : Option RepoInfo := do
  let root ← reqField j "root" Json.asStr?
  let name ← reqField j "name" Json.asStr?
  let db ← reqField j "default_branch" Json.asStr?
  let ru ← optField j "remote_url" Json.asStr?
  pure ⟨root, name, db, ru⟩

def Workspace.toJson (w : Workspace) : Json :=
  .obj [("root", .str w.root), ("name", .str w.name),
        ("default_branch", .str w.default_branch),
        ("remote_url", encOpt .str w.remote_url),
        ("worktree_prefix", .str w.worktree_prefix_),
        ("worktree_base_dir", .str w.worktree_base_dir),
        ("kind", w.kind.toJson),
        ("repos", .arr (w.repos.map RepoInfo.toJson))]

def Workspace.fromJson? (j : Json) : Option Workspace := do
  let root ← reqField j "root" Json.asStr?
  let name ← reqField j "name" Json.asStr?
  let db ← reqField j "default_branch" Json.asStr?
  let ru ← optField j "remote_url" Json.asStr?
  let wp ← reqField j "worktree_prefix" Json.asStr?
  let wb ← reqField j "worktree_base_dir" Json.asStr?
  let kind ← dfltField j "kind" .SingleRepo WorkspaceKind.fromJson?
  let repos ← dfltField j "repos" [] (decList RepoInfo.fromJson?)
  pure ⟨root, name, db, ru, wp, wb, kind, repos⟩

def SessionMetadata.toJson (m : SessionMetadata) : Json :=
  .obj [("description", encOpt .str m.description),
        ("pr_number", encOpt .num m.pr_number),
        ("parent_session", encOpt .str m.parent_session),
        ("turns", encOpt .num m.turns)]

def SessionMetadata.fromJson? (j : Json) : Option SessionMetadata := do
  let d ← optField j "description" Json.asStr?
  let pr ← optField j "pr_number" Json.asNat?
  let ps ← optField j "parent_session" Json.asStr?
  let t ← optField j "turns" Json.asNat?
  pure ⟨d, pr, ps, t⟩

def Session.toJson (s : Session) : Json :=
  .obj [("id", .str s.id), ("name", .str s.name), ("branch", .str s.branch),
        ("worktree_path", .str s.worktree_path),
        ("tmux_window", .str s.tmux_window),
        ("status", s.status.toJson),
        ("claude_session_id", encOpt .str s.claude_session_id),
        ("template", encOpt .str s.template),
        ("system_prompt_override", encOpt .str s.system_prompt_override),
        ("created_at", .str s.created_at),
        ("updated_at", .str s.updated_at),
        ("agents", .arr (s.agents.map .str)),
        ("metadata", s.metadata.toJson),
        ("is_main", .bool s.is_main),
        ("repo_worktrees", encStrMap s.repo_worktrees)]

def Session.fromJson? (j : Json) : Option Session := do
  let id ← reqField j "id" Json.asStr?
  let name ← reqField j "name" Json.asStr?
  let branch ← reqField j "branch" Json.asStr?
  let wt ← reqField j "worktree_path" Json.asStr?
  let tw ← reqField j "tmux_window" Json.asStr?
  let status ← reqField j "status" SessionStatus.fromJson?
  let csi ← optField j "claude_session_id" Json.asStr?
  let tmpl ← optField j "template" Json.asStr?
  let spo ← optField j "system_prompt_override" Json.asStr?
  let ca ← reqField j "created_at" Json.asStr?
  let ua ← reqField j "updated_at" Json.asStr?
  let ags ← reqField j "agents" (decList Json.asStr?)
  let md ← reqField j "metadata" SessionMetadata.fromJson?
  let im ← dfltField j "is_main" false Json.asBool?
  let rw ← dfltField j "repo_worktrees" [] decStrMap
  pure ⟨id, name, branch, wt, tw, status, csi, tmpl, spo, ca, ua, ags, md, im, rw⟩

def AgentResult.toJson (r : AgentResult) : Json :=
  .obj [("success", .bool r.success), ("summary", .str r.summary),
        ("duration_ms", .num r.duration_ms),
        ("session_id", .str r.session_id),
        ("raw_result", encOpt .str r.raw_result)]

def AgentResult.fromJson? (j : Json) : Option AgentResult := do
  let su ← reqField j "success" Json.asBool?
  let sm ← reqField j "summary" Json.asStr?
  let dm ← reqField j "duration_ms" Json.asNat?
  let si ← reqField j "session_id" Json.asStr?
  let rr ← optField j "raw_result" Json.asStr?
  pure ⟨su, sm, dm, si, rr⟩

def Agent.toJson (a : Agent) : Json :=
  .obj [("id", .str a.id), ("parent_session", .str a.parent_session),
        ("name", .str a.name), ("mode", a.mode.toJson),
        ("status", a.status.toJson),
        ("template", encOpt .str a.template),
        ("prompt", .str a.prompt),
        ("system_prompt", encOpt .str a.system_prompt),
        ("worktree_path", .str a.worktree_path),
        ("tmux_pane", encOpt .str a.tmux_pane),
        ("pid", encOpt .num a.pid),
        ("claude_session_id", encOpt .str a.claude_session_id),
        ("output_file", .str a.output_file),
        ("result", encOpt AgentResult.toJson a.result),
        ("created_at", .str a.created_at),
        ("completed_at", encOpt .str a.completed_at)]

def Agent.fromJson? (j : Json) : Option Agent := do
  let id ← reqField j "id" Json.asStr?
  let ps ← reqField j "parent_session" Json.asStr?
  let name ← reqField j "name" Json.asStr?
  let mode ← reqField j "mode" AgentMode.fromJson?
  let status ← reqField j "status" AgentStatus.fromJson?
  let tmpl ← optField j "template" Json.asStr?
  let prompt ← reqField j "prompt" Json.asStr?
  let sp ← optField j "system_prompt" Json.asStr?
  let wt ← reqField j "worktree_path" Json.asStr?
  let tp ← optField j "tmux_pane" Json.asStr?
  let pid ← optField j "pid" Json.asNat?
  let csi ← optField j "claude_session_id" Json.asStr?
  let of_ ← reqField j "output_file" Json.asStr?
  let res ← optField j "result" AgentResult.fromJson?
  let ca ← reqField j "created_at" Json.asStr?
  let co ← optField j "completed_at" Json.asStr?
  pure ⟨id, ps, name, mode, status, tmpl, prompt, sp, wt, tp, pid, csi, of_, res, ca, co⟩

def WorkspaceState.toJson (st : WorkspaceState) : Json :=
  .obj [("workspace", st.workspace.toJson),
        ("sessions", .arr (st.sessions.map Session.toJson)),
        ("agents", .arr (st.agents.map Agent.toJson)),
        ("tmux_session_name", .str st.tmux_session_name)]

def WorkspaceState.fromJson? (j : Json) : Option WorkspaceState := do
  let ws ← reqField j "workspace" Workspace.fromJson?
  let ss ← reqField j "sessions" (decList Session.fromJson?)
  let ags ← reqField j "agents" (decList Agent.fromJson?)
  let tn ← reqField j "tmux_session_name" Json.asStr?
  pure ⟨ws, ss, ags, tn⟩

/-! State store (src/infra/state.rs): `StateManager::load` / `StateManager::save`
over a small filesystem model. A file either holds a completely written JSON
document or unparsable bytes (an interrupted write). -/

/-- Content of a file: a fully written JSON document, or bytes that do not
parse (for example a partially written file). -/
inductive FileData where
  | json (doc : Json)
  | garbage
deriving Repr

/-- Filesystem model: association of paths to file contents, first match wins. -/
def Fs := List (String × FileData)

def fsRead (fs : Fs) (path : String) : Option FileData :=
  match fs with
  | [] => none
  | (p, d) :: rest => if p = path then some d else fsRead rest path

def fsWrite (fs : Fs) (path : String) (d : FileData) : Fs :=
  (path, d) :: fs

def fsRemove (fs : Fs) (path : String) : Fs :=
  fs.filter fun kv => kv.1 != path

/-- POSIX rename: atomically moves `src` over `dst` (no observable intermediate). -/
def fsRename (fs : Fs) (src dst : String) : Fs :=
  match fsRead fs src with
  | none => fs
  | some d => fsWrite (fsRemove fs src) dst d

/-- Canonical state file: `StateManager::new` sets `state_file = vibe_dir/workspace.json`. -/
def stateFilePath (vibeDir : String) : String := vibeDir ++ "/workspace.json"

/-- Temporary file used by `save`: `state_file.with_extension("json.tmp")`,
which on `workspace.json` yields `workspace.json.tmp` in the same directory. -/
def tmpFilePath (vibeDir : String) : String := vibeDir ++ "/workspace.json.tmp"

/-- Load failure taxonomy of `StateManager::load`: missing file is
`NotInitialized`, a read or parse failure is a fatal `State` error. -/
inductive LoadErr where
  | notInitialized
  | stateError
deriving Repr, DecidableEq

/-- Rust `StateManager::load`: read the canonical file and parse it. -/
def loadState (fs : Fs) (vibeDir : String) : Except LoadErr WorkspaceState :=
  match fsRead fs (stateFilePath vibeDir) with
  | none => .error .notInitialized
  | some .garbage => .error .stateError
  | some (.json doc) =>
    match WorkspaceState.fromJson? doc with
    | none => .error .stateError
    | some st => .ok st

/-- Rust `StateManager::save`: serialize, write the temp file, rename it over
the canonical file. -/
def saveState (fs : Fs) (vibeDir : String) (st : WorkspaceState) : Fs :=
  fsRename (fsWrite fs (tmpFilePath vibeDir) (.json st.toJson))
    (tmpFilePath vibeDir) (stateFilePath vibeDir)

/-- Interruption points of `save`: before the temp write, in the middle of the
temp write (the temp file holds arbitrary junk), after the temp write, and
after the rename. -/
inductive SaveInterrupt where
  | beforeTmpWrite
  | duringTmpWrite (junk : FileData)
  | afterTmpWrite
  | afterRename

/-- Filesystem state when `save` is interrupted at a given point. -/
def saveInterruptedFs (fs : Fs) (vibeDir : String) (st : WorkspaceState) :
    SaveInterrupt → Fs
  | .beforeTmpWrite => fs
  | .duringTmpWrite junk => fsWrite fs (tmpFilePath vibeDir) junk
  | .afterTmpWrite => fsWrite fs (tmpFilePath vibeDir) (.json st.toJson)
  | .afterRename => saveState fs vibeDir st

/-! Process controller (src/infra/tmux.rs): the `run_tmux` / `run_tmux_output`
retry wrappers and the existence checks built on them. An invocation's
environment is a function from attempt number to that attempt's outcome. -/

/-- Subset of `std::io::ErrorKind` relevant to `is_transient_io_error`. -/
inductive IoErrorKind where
  | connectionRefused
  | connectionReset
  | brokenPipe
  | timedOut
  | interrupted
  | notFound
  | permissionDenied
  | other
deriving Repr, DecidableEq

/-- Rust `is_transient_io_error` (src/infra/tmux.rs:462). -/
def is_transient_io_error : IoErrorKind → Bool
  | .connectionRefused => true
  | .connectionReset => true
  | .brokenPipe => true
  | .timedOut => true
  | .interrupted => true
  | _ => false

/-- Substring test, modelling Rust `str::contains`. -/
def strContains (hay needle : String) : Bool :=
  (List.range (hay.data.length + 1)).any fun i => needle.data.isPrefixOf (hay.data.drop i)

/-- Rust `is_transient_tmux_error` (src/infra/tmux.rs:474). -/
def is_transient_tmux_error (stderr : String) : Bool :=
  strContains stderr "server exited" || strContains stderr "lost server" ||
    strContains stderr "no server running"

/-- Display string of an IO error; the exact text is irrelevant to the claims. -/
def ioErrorMessage : IoErrorKind → String := fun _ => "io error"

/-- Outcome of one `tmux` subprocess invocation for `run_tmux`. -/
inductive TmuxAttempt where
  | ok
  | fail (stderr : String)
  | ioErr (kind : IoErrorKind)

/-- Result of a `run_tmux` call: the returned value, the number of subprocess
invocations made, and the list of backoff sleeps (in ms) in order. -/
structure RunOutcome where
  result : Except String Unit
  attempts : Nat
  delays : List Nat
deriving Repr

/-- Rust `run_tmux` loop body (src/infra/tmux.rs:480): `for attempt in 0..3`,
sleeping `50 * 2^attempt` ms at the top of every retry iteration; exit status
failures whose stderr contains "no server running" or "session not found" are
treated as success; transient failures retry while `attempt < 2`. -/
def runTmuxLoop (outcome : Nat → TmuxAttempt) :
    Nat → Nat → Option String → List Nat → RunOutcome
  | attempt, 0, lastErr, delays =>
    ⟨.error ("tmux command failed after 3 attempts: " ++ lastErr.getD ""), attempt, delays⟩
  | attempt, fuel + 1, lastErr, delays =>
    let delays := if attempt > 0 then delays ++ [50 * 2 ^ attempt] else delays
    match outcome attempt with
    | .ok => ⟨.ok (), attempt + 1, delays⟩
    | .fail stderr =>
      if strContains stderr "no server running" || strContains stderr "session not found" then
        ⟨.ok (), attempt + 1, delays⟩
      else if attempt < 2 && is_transient_tmux_error stderr then
        runTmuxLoop outcome (attempt + 1) fuel (some stderr) delays
      else ⟨.error stderr, attempt + 1, delays⟩
    | .ioErr k =>
      if attempt < 2 && is_transient_io_error k then
        runTmuxLoop outcome (attempt + 1) fuel (some (ioErrorMessage k)) delays
      else ⟨.error (ioErrorMessage k), attempt + 1, delays⟩

/-- Rust `run_tmux` (src/infra/tmux.rs:480). -/
def run_tmux (outcome : Nat → TmuxAttempt) : RunOutcome :=
  runTmuxLoop outcome 0 3 none []

/-- Outcome of one `tmux` subprocess invocation for `run_tmux_output`. -/
inductive TmuxOutAttempt where
  | ok (stdout : String)
  | fail (stderr : String)
  | ioErr (kind : IoErrorKind)

/-- Result of a `run_tmux_output` call. -/
structure RunOutOutcome where
  result : Except String String
  attempts : Nat
  delays : List Nat
deriving Repr

/-- Rust `run_tmux_output` loop body (src/infra/tmux.rs:524): like `run_tmux`
but it returns captured stdout and has no benign-stderr success branch. -/
def runTmuxOutputLoop (outcome : Nat → TmuxOutAttempt) :
    Nat → Nat → Option String → List Nat → RunOutOutcome
  | attempt, 0, lastErr, delays =>
    ⟨.error ("tmux command failed after 3 attempts: " ++ lastErr.getD ""), attempt, delays⟩
  | attempt, fuel + 1, lastErr, delays =>
    let delays := if attempt > 0 then delays ++ [50 * 2 ^ attempt] else delays
    match outcome attempt with
    | .ok stdout => ⟨.ok stdout, attempt + 1, delays⟩
    | .fail stderr =>
      if attempt < 2 && is_transient_tmux_error stderr then
        runTmuxOutputLoop outcome (attempt + 1) fuel (some stderr) delays
      else ⟨.error stderr, attempt + 1, delays⟩
    | .ioErr k =>
      if attempt < 2 && is_transient_io_error k then
        runTmuxOutputLoop outcome (attempt + 1) fuel (some (ioErrorMessage k)) delays
      else ⟨.error (ioErrorMessage k), attempt + 1, delays⟩

/-- Rust `run_tmux_output` (src/infra/tmux.rs:524). -/
def run_tmux_output (outcome : Nat → TmuxOutAttempt) : RunOutOutcome :=
  runTmuxOutputLoop outcome 0 3 none []

def exceptIsOk : Except ε α → Bool
  | .ok _ => true
  | .error _ => false

/-- Rust `TmuxController::window_exists` (src/infra/tmux.rs:441):
`run_tmux_output(display-message ...).is_ok()`. -/
def window_exists (outcome : Nat → TmuxOutAttempt) : Bool :=
  exceptIsOk (run_tmux_output outcome).result

/-- Rust `TmuxController::pane_exists` (src/infra/tmux.rs:448):
`run_tmux(display-message ...).is_ok()`. -/
def pane_exists (outcome : Nat → TmuxAttempt) : Bool :=
  exceptIsOk (run_tmux outcome).result

/-- Which attempt outcomes make `run_tmux` retry: a transient stderr that is
not one of the benign strings, or a transient IO error. -/
def attemptRetriable : TmuxAttempt → Bool
  | .ok => false
  | .fail stderr =>
    !(strContains stderr "no server running" || strContains stderr "session not found") &&
      is_transient_tmux_error stderr
  | .ioErr k => is_transient_io_error k

/-! Doctor reconciliation (src/commands/doctor.rs:59): the per-session
status-correction applied by the sweep, given whether the working copy and the
multiplexer window exist. Archived sessions are skipped. -/

/-- Rust `doctor::execute` reconciliation step for one session
(src/commands/doctor.rs:61): Archived sessions are skipped; otherwise the
(worktree_exists, tmux_window_exists) table is applied in source order. -/
def doctorReconcileSession (status : SessionStatus)
    (worktree_exists tmux_window_exists : Bool) : SessionStatus :=
  if status = .Archived then status
  else if !worktree_exists && !tmux_window_exists then .Archived
  else if !worktree_exists then .Failed "Worktree missing"
  else if !tmux_window_exists && status = .Active then .Paused
  else status

/-! Multi-repo provisioning (src/commands/new.rs:145):
`create_multi_repo_worktrees` joins one provisioning task per repository and
applies the partial-failure policy. The task outcomes are given in join
(completion) order; `sessionRoot/repoName` is each repo's target path. -/

/-- Result of `create_multi_repo_worktrees`: whether the session-root directory
was removed, and either the aggregated error or the repo-name-to-path map. -/
structure MultiRepoOutcome where
  root_removed : Bool
  result : Except String (List (String × String))
deriving Repr

/-- Join loop of `create_multi_repo_worktrees` (src/commands/new.rs:184):
accumulates the worktree map, the success count, and the error list in join
order. -/
def multiRepoJoin (sessionRoot : String) :
    List (String × Except String Unit) → List (String × String) × Nat × List String
  | [] => ([], 0, [])
  | (repoName, .ok _) :: rest =>
    let r := multiRepoJoin sessionRoot rest
    ((repoName, sessionRoot ++ "/" ++ repoName) :: r.1, r.2.1 + 1, r.2.2)
  | (repoName, .error e) :: rest =>
    let r := multiRepoJoin sessionRoot rest
    (r.1, r.2.1, (repoName ++ ": " ++ e) :: r.2.2)

/-- Rust `create_multi_repo_worktrees` (src/commands/new.rs:145): zero
successes remove the session root and fail with the aggregated message;
otherwise the successful subset is returned. -/
def create_multi_repo_worktrees (sessionRoot : String)
    (results : List (String × Except String Unit)) : MultiRepoOutcome :=
  let r := multiRepoJoin sessionRoot results
  if r.2.1 = 0 then
    ⟨true, .error ("Failed to create worktrees in any repo: " ++
      String.intercalate "; " r.2.2)⟩
  else ⟨false, .ok r.1⟩

/-! Kill session (src/commands/kill.rs): `execute` over the state model, with
the side effects recorded as an ordered trace. -/

/-- Errors surfaced by `kill::execute` in the modelled paths. -/
inductive ForgeErr where
  | user (msg : String)
  | sessionNotFound (name : String)
deriving Repr, DecidableEq

/-- External side effects of `kill::execute`, in program order. -/
inductive KillOp where
  | killWindow (target : String)
  | removeWorktree (path : String)
  | removeSessionRoot (path : String)
  | save
deriving Repr, DecidableEq

/-- Rust `kill::execute` (src/commands/kill.rs:7): refuses the main session,
refuses an active session without `force` (returning Ok with no changes),
otherwise kills the window, removes the working copies and persists the state
without the session and its agents. `pathExists` models `Path::exists`. -/
def kill_execute (state : WorkspaceState) (target : String) (force : Bool)
    (pathExists : String → Bool) : List KillOp × Except ForgeErr WorkspaceState :=
  match state.find_session_by_name target with
  | none => ([], .error (.sessionNotFound target))
  | some s =>
    if s.is_main then ([], .error (.user "Cannot kill the main session"))
    else if !force && s.is_active then ([], .ok state)
    else
      let windowTarget := state.tmux_session_name ++ ":" ++ s.name
      let worktreeOps :=
        if s.repo_worktrees.isEmpty then
          if pathExists s.worktree_path then [KillOp.removeWorktree s.worktree_path] else []
        else
          (s.repo_worktrees.filterMap fun rw =>
            if (state.workspace.repos.any fun r => r.name = rw.1) && pathExists rw.2 then
              some (KillOp.removeWorktree rw.2)
            else none) ++
          (if pathExists s.worktree_path then [KillOp.removeSessionRoot s.worktree_path] else [])
      (KillOp.killWindow windowTarget :: worktreeOps ++ [KillOp.save],
        .ok { state with
          sessions := state.sessions.filter fun t => t.id != s.id,
          agents := state.agents.filter fun a => a.parent_session != s.id })

/-! Agent reconciliation (src/tui/app.rs): the full sweep and the incremental
round-robin tick. `paneAlive` models `TmuxController::pane_exists`. -/

/-- Correction applied to one agent by both reconciliation modes
(src/tui/app.rs:277 and 323): an agent with a recorded pane that is not done
and whose pane is gone is forced to `Failed("tmux pane lost")` with the pane
handle cleared; all other agents are untouched. -/
def fixAgent (paneAlive : String → Bool) (a : Agent) : Agent :=
  match a.tmux_pane with
  | none => a
  | some pane =>
    if a.status.is_done then a
    else if paneAlive pane then a
    else { a with status := .Failed "tmux pane lost", tmux_pane := none }

/-- Rust `App::reconcile_tmux_state_full` (src/tui/app.rs:271): corrects every
agent and saves when any correction occurred. -/
def reconcile_tmux_state_full (paneAlive : String → Bool) (agents : List Agent) :
    List Agent × Bool :=
  (agents.map (fixAgent paneAlive), agents.any fun a => fixAgent paneAlive a != a)

/-- Loop of `App::reconcile_tmux_state` (src/tui/app.rs:317): scan forward from
the round-robin cursor, skip ineligible agents, check the first eligible one
and stop. Returns the agent list, the new cursor, and whether a save happened. -/
def reconcileIncrLoop (paneAlive : String → Bool) (agents : List Agent) (n : Nat) :
    Nat → Nat → List Agent × Nat × Bool
  | cursor, 0 => (agents, cursor, false)
  | cursor, fuel + 1 =>
    let idx := cursor % n
    match agents[idx]? with
    | none => (agents, idx + 1, false)
    | some a =>
      match a.tmux_pane with
      | none => reconcileIncrLoop paneAlive agents n (idx + 1) fuel
      | some pane =>
        if a.status.is_done then reconcileIncrLoop paneAlive agents n (idx + 1) fuel
        else if paneAlive pane then (agents, idx + 1, false)
        else (agents.set idx { a with status := .Failed "tmux pane lost", tmux_pane := none },
          idx + 1, true)

/-- Rust `App::reconcile_tmux_state` (src/tui/app.rs:305): checks at most one
eligible agent per call, wrapping around at most once. -/
def reconcile_tmux_state (paneAlive : String → Bool) (agents : List Agent)
    (next : Nat) : List Agent × Nat × Bool :=
  if agents.length = 0 then (agents, 0, false)
  else reconcileIncrLoop paneAlive agents agents.length next agents.length

/-! Agent status writers (C7): every non-test assignment to an agent's status
in the sources, as a transition relation. -/

/-- Every status transition the code performs on an existing agent record:
fresh agents are created Queued and set Running when their process starts
(src/commands/spawn.rs:89,154, src/commands/review.rs:148, src/tui/mod.rs:1104);
the watcher-completion handler sets Completed unconditionally
(src/tui/mod.rs:163); reconciliation forces a non-terminal agent with a lost
pane to Failed("tmux pane lost") (src/tui/app.rs:288,336). -/
inductive AgentStatusStep : AgentStatus → AgentStatus → Prop where
  | spawnStart : AgentStatusStep .Queued .Running
  | watcherCompleted (s : AgentStatus) : AgentStatusStep s .Completed
  | reconcilePaneLost (s : AgentStatus) (h : s.is_done = false) :
      AgentStatusStep s (.Failed "tmux pane lost")

/-- Forward edges of the agent status graph as the claim words it:
Queued to Running, Running to Completed or Failed, Completed to Ingested.
This definition follows the claim text, for comparison with `AgentStatusStep`. -/
def specForwardEdge : AgentStatus → AgentStatus → Bool
  | .Queued, .Running => true
  | .Running, .Completed => true
  | .Running, .Failed _ => true
  | .Completed, .Ingested => true
  | _, _ => false

/-! Agent result conversion (src/infra/claude.rs): `to_agent_result` and
`truncate_summary` at the byte level. Rust strings are UTF-8 byte lists;
`str::len` is the byte length and `&text[..n]` is a byte slice that panics
when `n` is not a character boundary. Panics are modelled as `none`. -/

/-- Rust `str::is_char_boundary`: index 0 is a boundary, an in-range index is a
boundary iff the byte there is not a UTF-8 continuation byte, and the only
valid out-of-range index is the length itself. -/
def is_char_boundary (bytes : List Nat) (i : Nat) : Bool :=
  if i = 0 then true
  else
    match bytes[i]? with
    | some b => !(128 ≤ b && b < 192)
    | none => i == bytes.length

/-- Rust byte slice `&text[..n]`: panics unless `n` is a character boundary. -/
def rustSliceTo (bytes : List Nat) (n : Nat) : Option (List Nat) :=
  if is_char_boundary bytes n then some (bytes.take n) else none

/-- Rust `truncate_summary` (src/infra/claude.rs:135): returns the text when
its byte length is at most `max_chars`, else the first `max_chars` bytes
followed by "..." (bytes 46,46,46); the slice panics off a char boundary. -/
def truncate_summary (text : List Nat) (max_chars : Nat) : Option (List Nat) :=
  if text.length ≤ max_chars then some text
  else (rustSliceTo text max_chars).map (fun t => t ++ [46, 46, 46])

/-- UTF-8 bytes of "success". -/
def successBytes : List Nat := [115, 117, 99, 99, 101, 115, 115]

/-- Rust `ClaudeJsonOutput` (src/infra/claude.rs:9), strings as byte lists. -/
structure ClaudeJsonOutput where
  output_type : List Nat
  subtype : List Nat
  is_error : Bool
  duration_ms : Nat
  num_turns : Nat
  result : List Nat
  session_id : List Nat
deriving Repr, DecidableEq

/-- Rust `AgentResult` with strings as byte lists, the codomain of
`to_agent_result`. -/
structure AgentResultBytes where
  success : Bool
  summary : List Nat
  duration_ms : Nat
  session_id : List Nat
  raw_result : Option (List Nat)
deriving Repr, DecidableEq

/-- Rust `to_agent_result` (src/infra/claude.rs:120); `none` models a panic
inside `truncate_summary`. -/
def to_agent_result (o : ClaudeJsonOutput) : Option AgentResultBytes :=
  (truncate_summary o.result 500).map fun s =>
    ⟨!o.is_error && o.subtype == successBytes, s, o.duration_ms, o.session_id, some o.result⟩

/-! Concrete fixtures used by witnesses and counterexamples. -/

def exWorkspace : Workspace :=
  ⟨"/ws", "ws", "main", none, "ws-vibe-", "/worktrees", .SingleRepo, []⟩

def exMeta : SessionMetadata := ⟨none, none, none, none⟩

def exMainSession : Session :=
  ⟨"sid-0", "main", "main", "/ws", "@0", .Active, none, none, none,
    "2026-01-01T00:00:00Z", "2026-01-01T00:00:00Z", [], exMeta, true, []⟩

def exSession : Session :=
  ⟨"sid-1", "demo", "feat/demo", "/worktrees/demo", "@1", .Active, none, none, none,
    "2026-01-01T00:00:00Z", "2026-01-01T00:00:00Z", [], exMeta, false, []⟩

def exAgent : Agent :=
  ⟨"aid-1", "sid-1", "agent", .Interactive, .Running, none, "do a task", none,
    "/worktrees/demo", some "%5", none, none, "/ws/.vibe/agents/aid-1/output.json",
    none, "2026-01-01T00:00:00Z", none⟩

def exState : WorkspaceState := ⟨exWorkspace, [exMainSession, exSession], [exAgent], "vibe-ws"⟩

/-- Persisted workspace object predating the `kind` and `repos` fields. -/
def exOldWorkspaceDoc : Json :=
  .obj [("root", .str "/ws"), ("name", .str "ws"),
        ("default_branch", .str "main"), ("remote_url", .null),
        ("worktree_prefix", .str "ws-vibe-"), ("worktree_base_dir", .str "/worktrees")]

/-- Persisted session object predating the `repo_worktrees` and `is_main` fields. -/
def exOldSessionDoc : Json :=
  .obj [("id", .str "sid-1"), ("name", .str "demo"),
        ("branch", .str "feat/demo"), ("worktree_path", .str "/worktrees/demo"),
        ("tmux_window", .str "@1"), ("status", .str "Active"),
        ("claude_session_id", .null), ("template", .null),
        ("system_prompt_override", .null),
        ("created_at", .str "2026-01-01T00:00:00Z"),
        ("updated_at", .str "2026-01-01T00:00:00Z"),
        ("agents", .arr []),
        ("metadata", .obj [("description", .null), ("pr_number", .null),
          ("parent_session", .null), ("turns", .null)])]

/-- Old persisted state document lacking all four backward-compatibility fields. -/
def exOldDoc : Json :=
  .obj [("workspace", exOldWorkspaceDoc),
        ("sessions", .arr [exOldSessionDoc]),
        ("agents", .arr []),
        ("tmux_session_name", .str "vibe-ws")]

/-- The state that `exOldDoc` should deserialize to, with the defaults filled in. -/
def exOldState : WorkspaceState := ⟨exWorkspace, [exSession], [], "vibe-ws"⟩

/-! Helper lemmas: the serde codecs invert each other. -/

theorem asStr_str (s : String) : Json.asStr? (.str s) = some s := rfl

theorem decOptJ_str (o : Option String) :
    decOptJ Json.asStr? (some (encOpt Json.str o)) = some o := by cases o <;> rfl

theorem decOptJ_nat (o : Option Nat) :
    decOptJ Json.asNat? (some (encOpt Json.num o)) = some o := by cases o <;> rfl

theorem kind_roundtrip (k : WorkspaceKind) : WorkspaceKind.fromJson? k.toJson = some k := by
  cases k <;> rfl

theorem sessionStatus_roundtrip (s : SessionStatus) :
    SessionStatus.fromJson? s.toJson = some s := by cases s <;> rfl

theorem agentStatus_roundtrip (s : AgentStatus) :
    AgentStatus.fromJson? s.toJson = some s := by cases s <;> rfl

theorem agentMode_roundtrip (m : AgentMode) : AgentMode.fromJson? m.toJson = some m := by
  cases m <;> rfl

theorem metadata_roundtrip (m : SessionMetadata) :
    SessionMetadata.fromJson? m.toJson = some m := by
  cases m with
  | mk d pr ps t => cases d <;> cases pr <;> cases ps <;> cases t <;> rfl

theorem repoinfo_roundtrip (r : RepoInfo) : RepoInfo.fromJson? r.toJson = some r := by
  cases r with
  | mk a b c d => cases d <;> rfl

theorem agentResult_roundtrip (r : AgentResult) : AgentResult.fromJson? r.toJson = some r := by
  cases r with
  | mk a b c d e => cases e <;> rfl

theorem decOptJ_agentResult (o : Option AgentResult) :
    decOptJ AgentResult.fromJson? (some (encOpt AgentResult.toJson o)) = some o := by
  cases o with
  | none => rfl
  | some r =>
    show (AgentResult.fromJson? (AgentResult.toJson r)).map some = some (some r)
    rw [agentResult_roundtrip r]; rfl

theorem optMapM_map_roundtrip (f : α → Json) (g : Json → Option α)
    (h : ∀ x, g (f x) = some x) (xs : List α) : optMapM g (xs.map f) = some xs := by
  induction xs with
  | nil => rfl
  | cons x xs ih => simp [optMapM, h, ih]

theorem decList_str (xs : List String) :
    decList Json.asStr? (.arr (xs.map Json.str)) = some xs :=
  optMapM_map_roundtrip Json.str Json.asStr? asStr_str xs

theorem decList_repo (xs : List RepoInfo) :
    decList RepoInfo.fromJson? (.arr (xs.map RepoInfo.toJson)) = some xs :=
  optMapM_map_roundtrip RepoInfo.toJson RepoInfo.fromJson? repoinfo_roundtrip xs

theorem decStrMap_encStrMap (m : List (String × String)) :
    decStrMap (encStrMap m) = some m := by
  induction m with
  | nil => rfl
  | cons kv m ih =>
    simp only [encStrMap, List.map_cons, decStrMap, optMapM] at ih ⊢
    simp_all [Json.asStr?]

theorem workspace_roundtrip (w : Workspace) : Workspace.fromJson? w.toJson = some w := by
  simp [Workspace.fromJson?, Workspace.toJson, reqField, optField, dfltField,
    Json.get?, jlookup, decOptJ_str, kind_roundtrip, decList_repo, decDfltJ,
    Json.asStr?, Option.bind]

theorem session_roundtrip (s : Session) : Session.fromJson? s.toJson = some s := by
  simp [Session.fromJson?, Session.toJson, reqField, optField, dfltField,
    Json.get?, jlookup, decOptJ_str, sessionStatus_roundtrip, metadata_roundtrip,
    decList_str, decStrMap_encStrMap, decDfltJ, Json.asStr?, Json.asBool?, Option.bind]

theorem agent_roundtrip (a : Agent) : Agent.fromJson? a.toJson = some a := by
  simp [Agent.fromJson?, Agent.toJson, reqField, optField, Json.get?, jlookup,
    decOptJ_str, decOptJ_nat, decOptJ_agentResult, agentStatus_roundtrip,
    agentMode_roundtrip, Json.asStr?, Option.bind]

theorem decList_session (xs : List Session) :
    decList Session.fromJson? (.arr (xs.map Session.toJson)) = some xs :=
  optMapM_map_roundtrip Session.toJson Session.fromJson? session_roundtrip xs

theorem decList_agent (xs : List Agent) :
    decList Agent.fromJson? (.arr (xs.map Agent.toJson)) = some xs :=
  optMapM_map_roundtrip Agent.toJson Agent.fromJson? agent_roundtrip xs

theorem state_roundtrip (st : WorkspaceState) :
    WorkspaceState.fromJson? st.toJson = some st := by
  simp [WorkspaceState.fromJson?, WorkspaceState.toJson, reqField, Json.get?, jlookup,
    workspace_roundtrip, decList_session, decList_agent, Json.asStr?, Option.bind]

/-! Claim theorems. -/

/-- C2 counterexample: for a non-archived Active session whose working copy is
gone but whose window is alive, the doctor sweep sets the status to
`Failed("Worktree missing")`, not `Failed("working copy missing")` as the
claim states. -/
theorem C2_counterexample :
    doctorReconcileSession .Active false true = .Failed "Worktree missing" ∧
    doctorReconcileSession .Active false true ≠ .Failed "working copy missing" := by
  constructor
  · rfl
  · decide

/-- C2 (amended): for every non-archived session examined by the doctor sweep,
with W the working copy existing and T the window existing: W,T = false,false
gives Archived; false,true gives Failed("Worktree missing"); true,false on an
Active session gives Paused; true,true leaves the status unchanged. -/
theorem C2_doctor_reconcile_table (st : SessionStatus) (w t : Bool)
    (h : st ≠ .Archived) :
    (w = false → t = false → doctorReconcileSession st w t = .Archived) ∧
    (w = false → t = true → doctorReconcileSession st w t = .Failed "Worktree missing") ∧
    (w = true → t = false → st = .Active → doctorReconcileSession st w t = .Paused) ∧
    (w = true → t = true → doctorReconcileSession st w t = st) := by
  refine ⟨?_, ?_, ?_, ?_⟩
  · rintro rfl rfl; simp [doctorReconcileSession, h]
  · rintro rfl rfl; simp [doctorReconcileSession, h]
  · rintro rfl rfl rfl; simp [doctorReconcileSession]
  · rintro rfl rfl; simp [doctorReconcileSession, h]

/-- C2 witness: the amended table evaluated on an Active session at all four
combinations of working-copy and window existence. -/
theorem C2_doctor_reconcile_table_witness :
    doctorReconcileSession .Active false false = .Archived ∧
    doctorReconcileSession .Active false true = .Failed "Worktree missing" ∧
    doctorReconcileSession .Active true false = .Paused ∧
    doctorReconcileSession .Active true true = .Active :=
  ⟨(C2_doctor_reconcile_table .Active false false (by decide)).1 rfl rfl,
   (C2_doctor_reconcile_table .Active false true (by decide)).2.1 rfl rfl,
   (C2_doctor_reconcile_table .Active true false (by decide)).2.2.1 rfl rfl rfl,
   (C2_doctor_reconcile_table .Active true true (by decide)).2.2.2 rfl rfl⟩

/-- C5: when every tmux invocation exits non-zero with a "no server running"
(or "session not found") stderr, `pane_exists` returns true — the benign-error
branch of `run_tmux` converts the failure to Ok — while `window_exists`
correctly returns false. This contradicts the claim that the existence checks
never report an absent resource as present. -/
theorem C5_pane_exists_reports_true_without_server :
    pane_exists (fun _ => .fail "no server running") = true ∧
    pane_exists (fun _ => .fail "session not found") = true ∧
    window_exists (fun _ => .fail "no server running") = false :=
  ⟨rfl, rfl, rfl⟩

/-- C7 counterexample: the watcher completion handler performs the transition
Ingested to Completed (it assigns Completed unconditionally), which the
claimed forward-only status graph forbids. -/
theorem C7_counterexample :
    AgentStatusStep .Ingested .Completed ∧ specForwardEdge .Ingested .Completed = false :=
  ⟨.watcherCompleted _, rfl⟩

/-- C7 (amended): every agent-status write in the code either follows the
claimed forward graph, or is the watcher completion handler writing Completed
from an arbitrary status, or is reconciliation failing a Queued agent
directly; no write ever produces Queued or Ingested. -/
theorem C7_status_writers (s t : AgentStatus) (h : AgentStatusStep s t) :
    t ≠ .Queued ∧ t ≠ .Ingested ∧
      (specForwardEdge s t = true ∨ t = .Completed ∨
        (s = .Queued ∧ t = .Failed "tmux pane lost")) := by
  cases h with
  | spawnStart => exact ⟨by decide, by decide, .inl rfl⟩
  | watcherCompleted s => exact ⟨by decide, by decide, .inr (.inl rfl)⟩
  | reconcilePaneLost s hs =>
    refine ⟨by decide, by decide, ?_⟩
    cases s <;> simp_all [AgentStatus.is_done, specForwardEdge]

/-- C7 witness: the amended statement evaluated on the spawn transition from
Queued to Running. -/
theorem C7_status_writers_witness :
    (AgentStatus.Running ≠ .Queued) ∧ (AgentStatus.Running ≠ .Ingested) ∧
      (specForwardEdge .Queued .Running = true ∨ AgentStatus.Running = .Completed ∨
        (AgentStatus.Queued = .Queued ∧ AgentStatus.Running = .Failed "tmux pane lost")) :=
  C7_status_writers .Queued .Running .spawnStart

/-- C10: evaluating `to_agent_result` on an output record whose result string
is 499 ASCII bytes followed by the two-byte character 0xC3 0xA9 panics: the
byte length 501 exceeds 500 and byte index 500 falls inside the multi-byte
character, so the slice `&text[..500]` in `truncate_summary` is off a char
boundary (`none` models the panic). -/
theorem C10_truncate_summary_panics :
    to_agent_result
      ⟨[], successBytes, false, 2, 1, List.replicate 499 97 ++ [195, 169], []⟩ = none := by
  have hget : (List.replicate 499 97 ++ [195, 169] : List Nat)[500]? = some 169 := by
    rw [List.getElem?_append_right (by simp)]
    simp
  have hb : is_char_boundary (List.replicate 499 97 ++ [195, 169]) 500 = false := by
    simp only [is_char_boundary, hget]
    decide
  have hlen : (List.replicate 499 97 ++ [195, 169] : List Nat).length = 501 := by simp
  simp only [to_agent_result, truncate_summary, rustSliceTo, hlen, hb]
  norm_num

/-- C4: killing the session found under the target name fails with the user
error "Cannot kill the main session" whenever that session has `is_main`,
for every value of `force`, performing no side effect (empty effect trace: no
window kill, no worktree removal, no state save). -/
theorem C4_kill_main_protected (state : WorkspaceState) (target : String) (force : Bool)
    (pathExists : String → Bool) (s : Session)
    (hfind : state.find_session_by_name target = some s) (hmain : s.is_main = true) :
    kill_execute state target force pathExists =
      ([], .error (.user "Cannot kill the main session")) := by
  simp [kill_execute, hfind, hmain]

/-- C4 witness: killing the main session of the example state with force. -/
theorem C4_kill_main_protected_witness :
    kill_execute exState "main" true (fun _ => true) =
      ([], .error (.user "Cannot kill the main session")) :=
  C4_kill_main_protected exState "main" true (fun _ => true) exMainSession (by rfl) rfl

/-! Helper lemmas for the state store model. -/

theorem tmp_ne_state (vibeDir : String) : tmpFilePath vibeDir ≠ stateFilePath vibeDir := by
  intro h
  have := congrArg String.length h
  simp only [tmpFilePath, stateFilePath, String.length_append] at this
  have h19 : "/workspace.json.tmp".length = 19 := by decide
  have h15 : "/workspace.json".length = 15 := by decide
  omega

theorem fsRead_write_self (fs : Fs) (p : String) (d : FileData) :
    fsRead (fsWrite fs p d) p = some d := by
  simp [fsRead, fsWrite]

theorem fsRead_write_ne (fs : Fs) (p q : String) (d : FileData) (h : q ≠ p) :
    fsRead (fsWrite fs q d) p = fsRead fs p := by
  simp [fsRead, fsWrite, h]

/-- C1: starting from any filesystem whose canonical state file loads as
`oldSt`, interrupting `save(newSt)` at any point (before, during or after the
temp write, or after the rename) leaves a filesystem from which `load` returns
the complete old document or the complete new document — never an error and
never a partial document. The temp write cannot affect the canonical path
because the temp file name differs, and the rename is atomic. -/
theorem C1_save_atomic (fs : Fs) (vibeDir : String) (oldSt newSt : WorkspaceState)
    (hload : loadState fs vibeDir = .ok oldSt) (pt : SaveInterrupt) :
    loadState (saveInterruptedFs fs vibeDir newSt pt) vibeDir = .ok oldSt ∨
    loadState (saveInterruptedFs fs vibeDir newSt pt) vibeDir = .ok newSt := by
  cases pt with
  | beforeTmpWrite => exact .inl hload
  | duringTmpWrite junk =>
    left
    unfold loadState at hload ⊢
    rw [saveInterruptedFs, fsRead_write_ne _ _ _ _ (tmp_ne_state vibeDir)]
    exact hload
  | afterTmpWrite =>
    left
    unfold loadState at hload ⊢
    rw [saveInterruptedFs, fsRead_write_ne _ _ _ _ (tmp_ne_state vibeDir)]
    exact hload
  | afterRename =>
    right
    unfold loadState saveInterruptedFs saveState fsRename
    rw [fsRead_write_self]
    simp [fsRead, fsWrite, state_roundtrip]

/-- C1 witness: a save of a new document over the example state, interrupted
between the temp write and the rename. -/
theorem C1_save_atomic_witness :
    loadState
      (saveInterruptedFs [(stateFilePath "/ws/.vibe", .json exState.toJson)]
        "/ws/.vibe" exOldState .afterTmpWrite) "/ws/.vibe" = .ok exState ∨
    loadState
      (saveInterruptedFs [(stateFilePath "/ws/.vibe", .json exState.toJson)]
        "/ws/.vibe" exOldState .afterTmpWrite) "/ws/.vibe" = .ok exOldState :=
  C1_save_atomic [(stateFilePath "/ws/.vibe", .json exState.toJson)] "/ws/.vibe"
    exState exOldState
    (by simp [loadState, fsRead, state_roundtrip]) .afterTmpWrite

/-- C8 counterexample: with every attempt failing transiently, the backoff
sleeps are 100ms then 200ms (`50 * 2^attempt` for attempt 1 and 2) — the first
retry delay is not the claimed 50ms. -/
theorem C8_counterexample :
    (run_tmux (fun _ => .fail "server exited")).delays = [100, 200] ∧
    (run_tmux (fun _ => .fail "server exited")).delays.head? ≠ some 50 := by
  constructor
  · rfl
  · decide

/-- C8 (amended): `run_tmux` makes between 1 and 3 subprocess attempts, sleeps
exactly `[100, 200]` ms truncated to the retries actually performed (50·2^k ms
before retry k), performs attempt 1 only when attempt 0 was transient, attempt
2 only when attempts 0 and 1 were transient, and a non-retriable first attempt
ends the call after exactly one attempt. -/
theorem C8_retry_policy (outcome : Nat → TmuxAttempt) :
    1 ≤ (run_tmux outcome).attempts ∧
    (run_tmux outcome).attempts ≤ 3 ∧
    (run_tmux outcome).delays = [100, 200].take ((run_tmux outcome).attempts - 1) ∧
    ((run_tmux outcome).attempts = 2 → attemptRetriable (outcome 0) = true) ∧
    ((run_tmux outcome).attempts = 3 →
      attemptRetriable (outcome 0) = true ∧ attemptRetriable (outcome 1) = true) ∧
    (attemptRetriable (outcome 0) = false → (run_tmux outcome).attempts = 1) := by
  rcases h0 : outcome 0 with _ | s0 | k0
  · simp [run_tmux, runTmuxLoop, h0, attemptRetriable]
  · rcases hb0 : (strContains s0 "no server running" || strContains s0 "session not found")
      with _ | _
    · rcases ht0 : is_transient_tmux_error s0 with _ | _
      · simp [run_tmux, runTmuxLoop, h0, hb0, ht0, attemptRetriable]
      · rcases h1 : outcome 1 with _ | s1 | k1
        · simp [run_tmux, runTmuxLoop, h0, hb0, ht0, h1, attemptRetriable]
        · rcases hb1 : (strContains s1 "no server running" || strContains s1 "session not found")
            with _ | _
          · rcases ht1 : is_transient_tmux_error s1 with _ | _
            · simp [run_tmux, runTmuxLoop, h0, hb0, ht0, h1, hb1, ht1, attemptRetriable]
            · rcases h2 : outcome 2 with _ | s2 | k2
              · simp [run_tmux, runTmuxLoop, h0, hb0, ht0, h1, hb1, ht1, h2, attemptRetriable]
              · rcases hb2 : (strContains s2 "no server running" ||
                    strContains s2 "session not found") with _ | _
                · simp [run_tmux, runTmuxLoop, h0, hb0, ht0, h1, hb1, ht1, h2, hb2,
                    attemptRetriable]
                · simp [run_tmux, runTmuxLoop, h0, hb0, ht0, h1, hb1, ht1, h2, hb2,
                    attemptRetriable]
              · simp [run_tmux, runTmuxLoop, h0, hb0, ht0, h1, hb1, ht1, h2, attemptRetriable]
          · simp [run_tmux, runTmuxLoop, h0, hb0, ht0, h1, hb1, attemptRetriable]
        · rcases ht1 : is_transient_io_error k1 with _ | _
          · simp [run_tmux, runTmuxLoop, h0, hb0, ht0, h1, ht1, attemptRetriable]
          · rcases h2 : outcome 2 with _ | s2 | k2
            · simp [run_tmux, runTmuxLoop, h0, hb0, ht0, h1, ht1, h2, attemptRetriable]
            · rcases hb2 : (strContains s2 "no server running" ||
                  strContains s2 "session not found") with _ | _
              · simp [run_tmux, runTmuxLoop, h0, hb0, ht0, h1, ht1, h2, hb2, attemptRetriable]
              · simp [run_tmux, runTmuxLoop, h0, hb0, ht0, h1, ht1, h2, hb2, attemptRetriable]
            · simp [run_tmux, runTmuxLoop, h0, hb0, ht0, h1, ht1, h2, attemptRetriable]
    · simp [run_tmux, runTmuxLoop, h0, hb0, attemptRetriable]
  · rcases ht0 : is_transient_io_error k0 with _ | _
    · simp [run_tmux, runTmuxLoop, h0, ht0, attemptRetriable]
    · rcases h1 : outcome 1 with _ | s1 | k1
      · simp [run_tmux, runTmuxLoop, h0, ht0, h1, attemptRetriable]
      · rcases hb1 : (strContains s1 "no server running" || strContains s1 "session not found")
          with _ | _
        · rcases ht1 : is_transient_tmux_error s1 with _ | _
          · simp [run_tmux, runTmuxLoop, h0, ht0, h1, hb1, ht1, attemptRetriable]
          · rcases h2 : outcome 2 with _ | s2 | k2
            · simp [run_tmux, runTmuxLoop, h0, ht0, h1, hb1, ht1, h2, attemptRetriable]
            · rcases hb2 : (strContains s2 "no server running" ||
                  strContains s2 "session not found") with _ | _
              · simp [run_tmux, runTmuxLoop, h0, ht0, h1, hb1, ht1, h2, hb2, attemptRetriable]
              · simp [run_tmux, runTmuxLoop, h0, ht0, h1, hb1, ht1, h2, hb2, attemptRetriable]
            · simp [run_tmux, runTmuxLoop, h0, ht0, h1, hb1, ht1, h2, attemptRetriable]
        · simp [run_tmux, runTmuxLoop, h0, ht0, h1, hb1, attemptRetriable]
      · rcases ht1 : is_transient_io_error k1 with _ | _
        · simp [run_tmux, runTmuxLoop, h0, ht0, h1, ht1, attemptRetriable]
        · rcases h2 : outcome 2 with _ | s2 | k2
          · simp [run_tmux, runTmuxLoop, h0, ht0, h1, ht1, h2, attemptRetriable]
          · rcases hb2 : (strContains s2 "no server running" ||
                strContains s2 "session not found") with _ | _
            · simp [run_tmux, runTmuxLoop, h0, ht0, h1, ht1, h2, hb2, attemptRetriable]
            · simp [run_tmux, runTmuxLoop, h0, ht0, h1, ht1, h2, hb2, attemptRetriable]
          · simp [run_tmux, runTmuxLoop, h0, ht0, h1, ht1, h2, attemptRetriable]

/-- C8 witness: the amended retry policy evaluated on a first-attempt success. -/
theorem C8_retry_policy_witness :
    1 ≤ (run_tmux (fun _ => .ok)).attempts ∧
    (run_tmux (fun _ => .ok)).attempts ≤ 3 ∧
    (run_tmux (fun _ => .ok)).delays = [100, 200].take ((run_tmux (fun _ => .ok)).attempts - 1) ∧
    ((run_tmux (fun _ => .ok)).attempts = 2 →
      attemptRetriable ((fun _ => TmuxAttempt.ok) 0) = true) ∧
    ((run_tmux (fun _ => .ok)).attempts = 3 →
      attemptRetriable ((fun _ => TmuxAttempt.ok) 0) = true ∧
        attemptRetriable ((fun _ => TmuxAttempt.ok) 1) = true) ∧
    (attemptRetriable ((fun _ => TmuxAttempt.ok) 0) = false →
      (run_tmux (fun _ => .ok)).attempts = 1) :=
  C8_retry_policy (fun _ => .ok)

/-! Helper lemma for the incremental reconciliation loop. -/

theorem reconcileIncrLoop_cases (paneAlive : String → Bool) (agents : List Agent) (n : Nat) :
    ∀ fuel cursor,
      ((reconcileIncrLoop paneAlive agents n cursor fuel).1 = agents ∧
        (reconcileIncrLoop paneAlive agents n cursor fuel).2.2 = false) ∨
      ∃ idx a pane, agents[idx]? = some a ∧ a.tmux_pane = some pane ∧
        a.status.is_done = false ∧ paneAlive pane = false ∧
        reconcileIncrLoop paneAlive agents n cursor fuel =
          (agents.set idx { a with status := .Failed "tmux pane lost", tmux_pane := none },
            idx + 1, true) := by
  intro fuel
  induction fuel with
  | zero => intro cursor; exact .inl ⟨rfl, rfl⟩
  | succ fuel ih =>
    intro cursor
    rcases hga : agents[cursor % n]? with _ | a
    · left
      constructor <;> simp [reconcileIncrLoop, hga]
    · rcases hp : a.tmux_pane with _ | pane
      · have : reconcileIncrLoop paneAlive agents n cursor (fuel + 1) =
            reconcileIncrLoop paneAlive agents n (cursor % n + 1) fuel := by
          simp [reconcileIncrLoop, hga, hp]
        rw [this]
        exact ih _
      · rcases hd : a.status.is_done with _ | _
        · rcases hal : paneAlive pane with _ | _
          · right
            exact ⟨cursor % n, a, pane, hga, hp, hd, hal,
              by simp [reconcileIncrLoop, hga, hp, hd, hal]⟩
          · left
            constructor <;> simp [reconcileIncrLoop, hga, hp, hd, hal]
        · have : reconcileIncrLoop paneAlive agents n cursor (fuel + 1) =
              reconcileIncrLoop paneAlive agents n (cursor % n + 1) fuel := by
            simp [reconcileIncrLoop, hga, hp, hd]
          rw [this]
          exact ih _

/-- C6 counterexample: reconciliation corrects a Running agent with a dead pane
to `Failed("tmux pane lost")`, not `Failed("pane lost")` as the claim states. -/
theorem C6_counterexample :
    fixAgent (fun _ => false) exAgent =
      { exAgent with status := .Failed "tmux pane lost", tmux_pane := none } ∧
    (fixAgent (fun _ => false) exAgent).status ≠ .Failed "pane lost" := by
  constructor
  · rfl
  · decide

/-- C6 (amended): an agent with a recorded pane, not in a terminal state, whose
pane is gone is corrected to `Failed("tmux pane lost")` with the handle
cleared; agents without a handle or already terminal are unchanged; the full
sweep applies this correction to every agent and saves exactly when a
correction occurred; the incremental tick either changes nothing (and does not
save), or corrects exactly one such eligible agent and saves. -/
theorem C6_agent_reconciliation :
    (∀ (alive : String → Bool) (a : Agent) (pane : String), a.tmux_pane = some pane →
      a.status.is_done = false → alive pane = false →
      fixAgent alive a = { a with status := .Failed "tmux pane lost", tmux_pane := none }) ∧
    (∀ (alive : String → Bool) (a : Agent),
      a.tmux_pane = none ∨ a.status.is_done = true → fixAgent alive a = a) ∧
    (∀ (alive : String → Bool) (agents : List Agent),
      (reconcile_tmux_state_full alive agents).1 = agents.map (fixAgent alive)) ∧
    (∀ (alive : String → Bool) (agents : List Agent),
      ((reconcile_tmux_state_full alive agents).2 = true ↔
        ∃ a ∈ agents, fixAgent alive a ≠ a)) ∧
    (∀ (alive : String → Bool) (agents : List Agent) (next : Nat),
      ((reconcile_tmux_state alive agents next).1 = agents ∧
        (reconcile_tmux_state alive agents next).2.2 = false) ∨
      ∃ idx a pane, agents[idx]? = some a ∧ a.tmux_pane = some pane ∧
        a.status.is_done = false ∧ alive pane = false ∧
        reconcile_tmux_state alive agents next =
          (agents.set idx { a with status := .Failed "tmux pane lost", tmux_pane := none },
            idx + 1, true)) := by
  refine ⟨?_, ?_, ?_, ?_, ?_⟩
  · intro alive a pane hp hd hal
    simp [fixAgent, hp, hd, hal]
  · intro alive a h
    rcases h with h | h
    · simp [fixAgent, h]
    · cases hp : a.tmux_pane with
      | none => simp [fixAgent, hp]
      | some pane => simp [fixAgent, hp, h]
  · intro alive agents; rfl
  · intro alive agents
    simp [reconcile_tmux_state_full, List.any_eq_true, bne_iff_ne]
  · intro alive agents next
    rcases hn : agents.length with _ | m
    · left
      constructor <;> simp [reconcile_tmux_state, hn]
    · have hne : agents.length ≠ 0 := by omega
      have heq : reconcile_tmux_state alive agents next =
          reconcileIncrLoop alive agents agents.length next agents.length := by
        simp [reconcile_tmux_state, hne]
      rw [heq]
      exact reconcileIncrLoop_cases alive agents agents.length agents.length next

/-- C6 witness: the correction evaluated on the example Running agent whose
pane probe fails. -/
theorem C6_agent_reconciliation_witness :
    fixAgent (fun _ => false) exAgent =
      { exAgent with status := .Failed "tmux pane lost", tmux_pane := none } :=
  C6_agent_reconciliation.1 (fun _ => false) exAgent "%5" rfl rfl rfl

/-! Helper lemmas for multi-repo provisioning. -/

theorem multiRepoJoin_fst (root : String) :
    ∀ rs : List (String × Except String Unit), (multiRepoJoin root rs).1 =
      rs.filterMap (fun p => match p.2 with
        | .ok _ => some (p.1, root ++ "/" ++ p.1)
        | .error _ => none) := by
  intro rs
  induction rs with
  | nil => rfl
  | cons p rest ih =>
    rcases p with ⟨name, res⟩
    cases res <;> simp [multiRepoJoin, List.filterMap_cons, ih]

theorem multiRepoJoin_count (root : String) :
    ∀ rs : List (String × Except String Unit), (multiRepoJoin root rs).2.1 =
      (rs.filter fun p => exceptIsOk p.2).length := by
  intro rs
  induction rs with
  | nil => rfl
  | cons p rest ih =>
    rcases p with ⟨name, res⟩
    cases res <;> simp [multiRepoJoin, exceptIsOk, List.filter_cons, ih]

theorem multiRepoJoin_errs (root : String) :
    ∀ rs : List (String × Except String Unit), (multiRepoJoin root rs).2.2 =
      rs.filterMap (fun p => match p.2 with
        | .error e => some (p.1 ++ ": " ++ e)
        | .ok _ => none) := by
  intro rs
  induction rs with
  | nil => rfl
  | cons p rest ih =>
    rcases p with ⟨name, res⟩
    cases res <;> simp [multiRepoJoin, List.filterMap_cons, ih]

theorem filterMap_length_lt {f : α → Option β} {l : List α} (x : α) (hx : x ∈ l)
    (hfx : f x = none) : (l.filterMap f).length < l.length := by
  induction l with
  | nil => cases hx
  | cons y ys ih =>
    rcases List.mem_cons.mp hx with rfl | hmem
    · simp only [List.filterMap_cons, hfx, List.length_cons]
      exact Nat.lt_succ_of_le (List.length_filterMap_le f ys)
    · cases hfy : f y with
      | none =>
        simp only [List.filterMap_cons, hfy, List.length_cons]
        exact Nat.lt_succ_of_lt (ih hmem)
      | some b =>
        simp only [List.filterMap_cons, hfy, List.length_cons]
        exact Nat.succ_lt_succ (ih hmem)

/-- C3: when every repository fails, the session root is removed and the
operation fails with the aggregated message listing each repository's failure
in join order; when at least one repository succeeds, the operation succeeds
without removing the root, the returned map holds exactly the successful
repositories at `sessionRoot/name`, a name is in the map iff that repository
succeeded, and when some repository also failed the map is strictly smaller
than the repository list. -/
theorem C3_multi_repo_partial_failure (root : String)
    (results : List (String × Except String Unit)) :
    ((∀ r ∈ results, exceptIsOk r.2 = false) →
      create_multi_repo_worktrees root results =
        ⟨true, .error ("Failed to create worktrees in any repo: " ++
          String.intercalate "; " (results.filterMap fun p =>
            match p.2 with
            | .error e => some (p.1 ++ ": " ++ e)
            | .ok _ => none))⟩) ∧
    (∀ r0 ∈ results, exceptIsOk r0.2 = true →
      create_multi_repo_worktrees root results =
        ⟨false, .ok (results.filterMap fun p =>
          match p.2 with
          | .ok _ => some (p.1, root ++ "/" ++ p.1)
          | .error _ => none)⟩ ∧
      (∀ name, name ∈ ((results.filterMap fun p =>
          match p.2 with
          | .ok _ => some (p.1, root ++ "/" ++ p.1)
          | .error _ => none)).map Prod.fst ↔ (name, Except.ok ()) ∈ results) ∧
      ((∃ r1 ∈ results, exceptIsOk r1.2 = false) →
        ((results.filterMap fun p =>
          match p.2 with
          | .ok _ => some (p.1, root ++ "/" ++ p.1)
          | .error _ => none)).length < results.length)) := by
  constructor
  · intro hall
    have hc : (multiRepoJoin root results).2.1 = 0 := by
      rw [multiRepoJoin_count]
      simp only [List.length_eq_zero]
      rw [List.filter_eq_nil_iff]
      intro a ha
      simp [hall a ha]
    simp [create_multi_repo_worktrees, hc, multiRepoJoin_errs]
  · intro r0 hr0 hok
    have hc : (multiRepoJoin root results).2.1 ≠ 0 := by
      rw [multiRepoJoin_count]
      have : r0 ∈ results.filter fun p => exceptIsOk p.2 :=
        List.mem_filter.mpr ⟨hr0, hok⟩
      intro hzero
      rw [List.length_eq_zero] at hzero
      rw [hzero] at this
      cases this
    refine ⟨by simp [create_multi_repo_worktrees, hc, multiRepoJoin_fst], ?_, ?_⟩
    · intro name
      constructor
      · intro h
        simp only [List.mem_map, List.mem_filterMap] at h
        obtain ⟨⟨n2, path⟩, ⟨⟨pn, pr⟩, hp, hfp⟩, hname⟩ := h
        cases pr with
        | ok u =>
          simp only at hfp
          cases hfp
          cases u
          subst hname
          exact hp
        | error e => simp at hfp
      · intro h
        simp only [List.mem_map, List.mem_filterMap]
        exact ⟨(name, root ++ "/" ++ name), ⟨(name, .ok ()), h, rfl⟩, rfl⟩
    · rintro ⟨r1, hr1, hfail⟩
      apply filterMap_length_lt r1 hr1
      rcases r1 with ⟨n1, res1⟩
      cases res1 with
      | ok u => simp [exceptIsOk] at hfail
      | error e => rfl

/-- C3 witness: two repositories of which one fails — the result references
exactly the successful one. -/
theorem C3_multi_repo_partial_failure_witness :
    create_multi_repo_worktrees "/wt/s" [("api", .ok ()), ("web", .error "boom")] =
      ⟨false, .ok [("api", "/wt/s/api")]⟩ :=
  ((C3_multi_repo_partial_failure "/wt/s" [("api", .ok ()), ("web", .error "boom")]).2
    ("api", .ok ()) (List.mem_cons_self _ _) rfl).1

/-! Helper lemmas for the backward-compatibility claim. -/

theorem obind_eq_some {x : Option α} {f : α → Option β} {b : β}
    (h : x >>= f = some b) : ∃ a, x = some a ∧ f a = some b := by
  cases x with
  | none => exact absurd h (by simp)
  | some a => exact ⟨a, rfl, h⟩

theorem workspace_defaults (j : Json) (w : Workspace)
    (hk : j.get? "kind" = none) (hr : j.get? "repos" = none)
    (hw : Workspace.fromJson? j = some w) :
    w.kind = .SingleRepo ∧ w.repos = [] := by
  unfold Workspace.fromJson? at hw
  simp only [reqField, optField, dfltField, hk, hr, decDfltJ, bind, Option.bind_eq_some,
    Option.pure_def, Option.some.injEq] at hw
  obtain ⟨root, hroot, name, hname, db, hdb, ru, hru, wp, hwp, wb, hwb,
    k, hk2, rp, hr2, heq⟩ := hw
  rw [← heq]
  exact ⟨hk2.symm, hr2.symm⟩

theorem session_defaults (j : Json) (s : Session)
    (him : j.get? "is_main" = none) (hrw : j.get? "repo_worktrees" = none)
    (hs : Session.fromJson? j = some s) :
    s.is_main = false ∧ s.repo_worktrees = [] := by
  unfold Session.fromJson? at hs
  obtain ⟨idv, h1, hs⟩ := obind_eq_some hs
  obtain ⟨namev, h2, hs⟩ := obind_eq_some hs
  obtain ⟨branchv, h3, hs⟩ := obind_eq_some hs
  obtain ⟨wtv, h4, hs⟩ := obind_eq_some hs
  obtain ⟨twv, h5, hs⟩ := obind_eq_some hs
  obtain ⟨stv, h6, hs⟩ := obind_eq_some hs
  obtain ⟨csiv, h7, hs⟩ := obind_eq_some hs
  obtain ⟨tmplv, h8, hs⟩ := obind_eq_some hs
  obtain ⟨spov, h9, hs⟩ := obind_eq_some hs
  obtain ⟨cav, h10, hs⟩ := obind_eq_some hs
  obtain ⟨uav, h11, hs⟩ := obind_eq_some hs
  obtain ⟨agsv, h12, hs⟩ := obind_eq_some hs
  obtain ⟨mdv, h13, hs⟩ := obind_eq_some hs
  obtain ⟨imv, h14, hs⟩ := obind_eq_some hs
  obtain ⟨rwv, h15, hs⟩ := obind_eq_some hs
  rw [dfltField, him] at h14
  simp only [decDfltJ] at h14
  rw [dfltField, hrw] at h15
  simp only [decDfltJ] at h15
  cases h14
  cases h15
  cases hs
  exact ⟨rfl, rfl⟩

theorem state_components (j : Json) (st : WorkspaceState)
    (h : WorkspaceState.fromJson? j = some st) :
    (∃ wdoc, j.get? "workspace" = some wdoc ∧
      Workspace.fromJson? wdoc = some st.workspace) ∧
    (∃ sdocs, j.get? "sessions" = some sdocs ∧
      decList Session.fromJson? sdocs = some st.sessions) := by
  unfold WorkspaceState.fromJson? at h
  simp only [reqField, bind, Option.bind_eq_some, Option.pure_def, Option.some.injEq] at h
  obtain ⟨ws, ⟨wdoc, hwdoc, hws⟩, ss, ⟨sdocs, hsdocs, hss⟩, ags, hags, tn, htn, heq⟩ := h
  rw [← heq]
  exact ⟨⟨wdoc, hwdoc, hws⟩, ⟨sdocs, hsdocs, hss⟩⟩

theorem optMapM_mem {f : α → Option β} :
    ∀ {xs : List α} {ys : List β}, optMapM f xs = some ys →
      ∀ y ∈ ys, ∃ x ∈ xs, f x = some y := by
  intro xs
  induction xs with
  | nil =>
    intro ys h y hy
    simp only [optMapM, Option.some.injEq] at h
    rw [← h] at hy
    cases hy
  | cons x xs ih =>
    intro ys h y hy
    simp only [optMapM, bind, Option.bind_eq_some, Option.pure_def,
      Option.some.injEq] at h
    obtain ⟨b, hb, bs, hbs, heq⟩ := h
    rw [← heq] at hy
    rcases List.mem_cons.mp hy with rfl | hmem
    · exact ⟨x, List.mem_cons_self _ _, hb⟩
    · obtain ⟨x2, hx2, hfx2⟩ := ih hbs y hmem
      exact ⟨x2, List.mem_cons_of_mem _ hx2, hfx2⟩

/-- C9: the example pre-migration document (no `kind`, `repos`,
`repo_worktrees`, `is_main`) deserializes to the state with the SingleRepo /
empty / empty / false defaults; in general, any document whose workspace
object lacks `kind` and `repos` decodes with those two defaults, any document
whose session objects all lack `is_main` and `repo_worktrees` decodes every
session with those two defaults; and serialization round-trips: decoding the
encoding of any state yields that exact state (all sessions, agents, workspace
fields, and defaults included). -/
theorem C9_backcompat_roundtrip :
    (WorkspaceState.fromJson? exOldDoc = some exOldState) ∧
    (∀ (doc wdoc : Json) (st : WorkspaceState),
      WorkspaceState.fromJson? doc = some st →
      doc.get? "workspace" = some wdoc →
      wdoc.get? "kind" = none → wdoc.get? "repos" = none →
      st.workspace.kind = .SingleRepo ∧ st.workspace.repos = []) ∧
    (∀ (doc : Json) (sarr : List Json) (st : WorkspaceState),
      WorkspaceState.fromJson? doc = some st →
      doc.get? "sessions" = some (.arr sarr) →
      (∀ sdoc ∈ sarr, sdoc.get? "is_main" = none ∧ sdoc.get? "repo_worktrees" = none) →
      ∀ s ∈ st.sessions, s.is_main = false ∧ s.repo_worktrees = []) ∧
    (∀ st : WorkspaceState, WorkspaceState.fromJson? st.toJson = some st) := by
  refine ⟨rfl, ?_, ?_, state_roundtrip⟩
  · intro doc wdoc st hdec hw hk hr
    obtain ⟨⟨wdoc2, hw2, hws⟩, _⟩ := state_components doc st hdec
    rw [hw] at hw2
    cases hw2
    exact workspace_defaults wdoc st.workspace hk hr hws
  · intro doc sarr st hdec hs hmissing s hmem
    obtain ⟨_, ⟨sdocs, hs2, hss⟩⟩ := state_components doc st hdec
    rw [hs] at hs2
    cases hs2
    simp only [decList] at hss
    obtain ⟨sdoc, hsdoc, hdecs⟩ := optMapM_mem hss s hmem
    obtain ⟨him, hrw⟩ := hmissing sdoc hsdoc
    exact session_defaults sdoc s him hrw hdecs

/-- C9 witness: the defaulting conjunct applied to the example old document. -/
theorem C9_backcompat_roundtrip_witness :
    exOldState.workspace.kind = .SingleRepo ∧ exOldState.workspace.repos = [] :=
  C9_backcompat_roundtrip.2.1 exOldDoc exOldWorkspaceDoc exOldState
    C9_backcompat_roundtrip.1 rfl rfl rfl
